import Mathlib

/-
Verification of the heapster metrics catalog (metrics/core/metrics.go).

The Go source defines a static registry of metric descriptors together with
per-metric applicability predicates and extraction functions over cadvisor
container snapshots.  This file gives a shallow embedding of that data model
and of every extractor the registry's grouped lists reference, and proves the
testable properties stated in the specification against it.

Modelling conventions:
  - Go `uint64` fields are `Nat`; the Go conversion `int64(x)` is `toInt64`,
    which reduces modulo 2^64 and reinterprets as a signed value.
  - Go `int64` overflow on addition is `wrap64`.
  - Go maps with string keys are association lists in literal order (Go map
    literals have distinct keys, so `List.lookup` matches Go map indexing).
  - The ambient wall clock (Go `time.Now`, reached through `time.Since` in
    the uptime extractor) is passed to every extractor as an explicit `now`
    nanosecond timestamp; extractors other than uptime ignore it.
-/

inductive MetricType where
  | cumulative
  | gauge
deriving DecidableEq

def MetricCumulative : MetricType := MetricType.cumulative

def MetricGauge : MetricType := MetricType.gauge

inductive ValueType where
  | int64
  | float
deriving DecidableEq

def ValueInt64 : ValueType := ValueType.int64

def ValueFloat : ValueType := ValueType.float

inductive UnitsType where
  | bytes
  | milliseconds
  | nanoseconds
  | count
deriving DecidableEq

def UnitsBytes : UnitsType := UnitsType.bytes

def UnitsMilliseconds : UnitsType := UnitsType.milliseconds

def UnitsNanoseconds : UnitsType := UnitsType.nanoseconds

def UnitsCount : UnitsType := UnitsType.count

/-- Modelled from the spec: label descriptors are (key, description) pairs
(metrics/core outside src/ declares the concrete `LabelDescriptor` type). -/
structure LabelDescriptor where
  Key : String
  Description : String
deriving DecidableEq

/-- Modelled from the spec: filesystem and disk metrics key on a
`resource_id` label (the concrete constant lives in metrics/core outside
src/). -/
def LabelResourceID : LabelDescriptor :=
  { Key := "resource_id", Description := "Identifier(s) specific to a metric" }

/-- Modelled from the spec: accelerator metrics key on three labels jointly
(make, model, device id); concrete constants live outside src/. -/
def LabelAcceleratorMake : LabelDescriptor :=
  { Key := "make", Description := "Make of the accelerator" }

/-- Modelled from the spec: see `LabelAcceleratorMake`. -/
def LabelAcceleratorModel : LabelDescriptor :=
  { Key := "model", Description := "Model of the accelerator" }

/-- Modelled from the spec: see `LabelAcceleratorMake`. -/
def LabelAcceleratorID : LabelDescriptor :=
  { Key := "accelerator_id", Description := "Id of the accelerator" }

/-- Label set carried by filesystem and disk metrics (`metricLabels` in the
source package, outside src/; its exact content is irrelevant to the claims
beyond containing the resource-id key). -/
def metricLabels : List LabelDescriptor := [LabelResourceID]

/-- Label set carried by accelerator metrics (`acceleratorLabels` in the
source package, outside src/). -/
def acceleratorLabels : List LabelDescriptor :=
  [LabelAcceleratorMake, LabelAcceleratorModel, LabelAcceleratorID]

/-- Go `int64(x)` applied to a `uint64` value: reduce modulo 2^64 and
reinterpret as a signed 64-bit value. -/
def toInt64 (n : Nat) : Int :=
  if n % 2 ^ 64 < 2 ^ 63 then ((n % 2 ^ 64 : Nat) : Int)
  else ((n % 2 ^ 64 : Nat) : Int) - 2 ^ 64

/-- Go two's-complement wrap-around of signed 64-bit addition results. -/
def wrap64 (x : Int) : Int := (x + 2 ^ 63) % 2 ^ 64 - 2 ^ 63

/- Snapshot model: the cadvisor v1 structures, with exactly the fields the
source file reads.  Timestamps are nanosecond counts (`CreationTime.IsZero`
in Go corresponds to `CreationTime = 0`). -/

structure ContainerSpec where
  CreationTime : Int
  HasCpu : Bool
  HasMemory : Bool
  HasNetwork : Bool
  HasFilesystem : Bool
  HasDiskIo : Bool
deriving DecidableEq

/-- Container identity as consumed by the extractors.  `IsAggregate` is
modelled from the spec: the snapshot carries "an entity-kind flag
(individual vs. aggregate)"; the concrete predicate `metrics.IsNode` lives
in metrics/util/metrics, outside src/. -/
structure ContainerInfo where
  Spec : ContainerSpec
  IsAggregate : Bool
deriving DecidableEq

/-- Modelled from the spec: "an entity-kind distinction (aggregate/node
entities vs. individual containers)"; the Go helper `metrics.IsNode`
(metrics/util/metrics, outside src/) reports whether the entity is the
aggregate/node entity. -/
def metrics.IsNode (c : ContainerInfo) : Bool := c.IsAggregate

structure CpuUsage where
  Total : Nat
deriving DecidableEq

structure CpuStats where
  Usage : CpuUsage
deriving DecidableEq

structure MemoryStatsMemoryData where
  Pgfault : Nat
  Pgmajfault : Nat
deriving DecidableEq

structure MemoryStats where
  Usage : Nat
  Cache : Nat
  RSS : Nat
  WorkingSet : Nat
  ContainerData : MemoryStatsMemoryData
deriving DecidableEq

structure InterfaceStats where
  RxBytes : Nat
  RxErrors : Nat
  TxBytes : Nat
  TxErrors : Nat
deriving DecidableEq

structure NetworkStats where
  Interfaces : List InterfaceStats
deriving DecidableEq

structure FsStats where
  Device : String
  Usage : Nat
  Limit : Nat
  HasInodes : Bool
  Inodes : Nat
  InodesFree : Nat
deriving DecidableEq

structure PerDiskStats where
  Device : String
  Major : Nat
  Minor : Nat
  Stats : List (String × Nat)
deriving DecidableEq

structure DiskIoStats where
  IoServiceBytes : List PerDiskStats
deriving DecidableEq

structure AcceleratorStats where
  Make : String
  Model : String
  ID : String
  MemoryTotal : Nat
  MemoryUsed : Nat
  DutyCycle : Nat
deriving DecidableEq

structure ContainerStats where
  Cpu : CpuStats
  Memory : MemoryStats
  Network : NetworkStats
  Filesystem : List FsStats
  DiskIo : DiskIoStats
  Accelerators : List AcceleratorStats
deriving DecidableEq

/-- Identity and metadata for one metric (`MetricDescriptor` in Go; the Go
field `Type` is spelled `Type'` here because `Type` is a Lean keyword). -/
structure MetricDescriptor where
  Name : String
  Description : String
  Labels : List LabelDescriptor
  Type' : MetricType
  ValueType : ValueType
  Units : UnitsType
deriving DecidableEq

/-- Extracted value (`MetricValue` in the source package, outside src/; its
shape follows the spec: valueType, kind, intValue, floatValue). -/
structure MetricValue where
  ValueType : ValueType
  MetricType : MetricType
  IntValue : Int
  FloatValue : Float

/-- One labeled data point: metric name, label key/value pairs, value. -/
structure LabeledMetric where
  Name : String
  Labels : List (String × String)
  MetricValue : MetricValue

/-- A descriptor plus optional behavior.  Go function fields may be nil;
`none` models nil.  Extractors additionally receive the ambient clock. -/
structure Metric where
  MetricDescriptor : MetricDescriptor
  HasValue : Option (ContainerSpec → Bool)
  GetValue : Option (Int → ContainerInfo → ContainerStats → MetricValue)
  HasLabeledMetric : Option (ContainerSpec → ContainerStats → Bool)
  GetLabeledMetric : Option (Int → ContainerInfo → ContainerStats → List LabeledMetric)

/-- Go's struct embedding promotes the descriptor's `Name` to the metric. -/
def Metric.Name (m : Metric) : String := m.MetricDescriptor.Name

/- Scalar extraction functions (the `GetValue`/`HasValue` closures of the
standard metrics, named so theorems can refer to them). -/

def uptimeHasValue (spec : ContainerSpec) : Bool :=
  !(spec.CreationTime == 0)

def uptimeGetValue (now : Int) (c : ContainerInfo) (_stat : ContainerStats) : MetricValue :=
  { ValueType := ValueInt64,
    MetricType := MetricCumulative,
    IntValue := Int.tdiv (wrap64 (now - c.Spec.CreationTime)) 1000000,
    FloatValue := 0 }

def cpuUsageGetValue (_now : Int) (c : ContainerInfo) (stat : ContainerStats) : MetricValue :=
  let metricValue : MetricValue :=
    { ValueType := ValueInt64, MetricType := MetricCumulative, IntValue := 0, FloatValue := 0 }
  if !metrics.IsNode c then
    { metricValue with IntValue := toInt64 stat.Cpu.Usage.Total }
  else
    metricValue

def memoryUsageGetValue (_now : Int) (c : ContainerInfo) (stat : ContainerStats) : MetricValue :=
  let metricValue : MetricValue :=
    { ValueType := ValueInt64, MetricType := MetricGauge, IntValue := 0, FloatValue := 0 }
  if !metrics.IsNode c then
    { metricValue with IntValue := toInt64 stat.Memory.Usage }
  else
    metricValue

def memoryCacheGetValue (_now : Int) (c : ContainerInfo) (stat : ContainerStats) : MetricValue :=
  let metricValue : MetricValue :=
    { ValueType := ValueInt64, MetricType := MetricGauge, IntValue := 0, FloatValue := 0 }
  if !metrics.IsNode c then
    { metricValue with IntValue := toInt64 stat.Memory.Cache }
  else
    metricValue

def memoryRSSGetValue (_now : Int) (c : ContainerInfo) (stat : ContainerStats) : MetricValue :=
  let metricValue : MetricValue :=
    { ValueType := ValueInt64, MetricType := MetricGauge, IntValue := 0, FloatValue := 0 }
  if !metrics.IsNode c then
    { metricValue with IntValue := toInt64 stat.Memory.RSS }
  else
    metricValue

def memoryWorkingSetGetValue (_now : Int) (c : ContainerInfo) (stat : ContainerStats) : MetricValue :=
  let metricValue : MetricValue :=
    { ValueType := ValueInt64, MetricType := MetricGauge, IntValue := 0, FloatValue := 0 }
  if !metrics.IsNode c then
    { metricValue with IntValue := toInt64 stat.Memory.WorkingSet }
  else
    metricValue

def memoryPageFaultsGetValue (_now : Int) (c : ContainerInfo) (stat : ContainerStats) : MetricValue :=
  let metricValue : MetricValue :=
    { ValueType := ValueInt64, MetricType := MetricCumulative, IntValue := 0, FloatValue := 0 }
  if !metrics.IsNode c then
    { metricValue with IntValue := toInt64 stat.Memory.ContainerData.Pgfault }
  else
    metricValue

def memoryMajorPageFaultsGetValue (_now : Int) (c : ContainerInfo) (stat : ContainerStats) : MetricValue :=
  let metricValue : MetricValue :=
    { ValueType := ValueInt64, MetricType := MetricCumulative, IntValue := 0, FloatValue := 0 }
  if !metrics.IsNode c then
    { metricValue with IntValue := toInt64 stat.Memory.ContainerData.Pgmajfault }
  else
    metricValue

def networkRxGetValue (_now : Int) (c : ContainerInfo) (stat : ContainerStats) : MetricValue :=
  let rxBytes : Int :=
    stat.Network.Interfaces.foldl
      (fun acc interfaceStat => wrap64 (acc + toInt64 interfaceStat.RxBytes)) 0
  let metricValue : MetricValue :=
    { ValueType := ValueInt64, MetricType := MetricCumulative, IntValue := 0, FloatValue := 0 }
  if !metrics.IsNode c then
    { metricValue with IntValue := rxBytes }
  else
    metricValue

def networkRxErrorsGetValue (_now : Int) (c : ContainerInfo) (stat : ContainerStats) : MetricValue :=
  let rxErrors : Int :=
    stat.Network.Interfaces.foldl
      (fun acc interfaceStat => wrap64 (acc + toInt64 interfaceStat.RxErrors)) 0
  let metricValue : MetricValue :=
    { ValueType := ValueInt64, MetricType := MetricCumulative, IntValue := 0, FloatValue := 0 }
  if !metrics.IsNode c then
    { metricValue with IntValue := rxErrors }
  else
    metricValue

def networkTxGetValue (_now : Int) (c : ContainerInfo) (stat : ContainerStats) : MetricValue :=
  let txBytes : Int :=
    stat.Network.Interfaces.foldl
      (fun acc interfaceStat => wrap64 (acc + toInt64 interfaceStat.TxBytes)) 0
  let metricValue : MetricValue :=
    { ValueType := ValueInt64, MetricType := MetricCumulative, IntValue := 0, FloatValue := 0 }
  if !metrics.IsNode c then
    { metricValue with IntValue := txBytes }
  else
    metricValue

def networkTxErrorsGetValue (_now : Int) (c : ContainerInfo) (stat : ContainerStats) : MetricValue :=
  let txErrors : Int :=
    stat.Network.Interfaces.foldl
      (fun acc interfaceStat => wrap64 (acc + toInt64 interfaceStat.TxErrors)) 0
  let metricValue : MetricValue :=
    { ValueType := ValueInt64, MetricType := MetricCumulative, IntValue := 0, FloatValue := 0 }
  if !metrics.IsNode c then
    { metricValue with IntValue := txErrors }
  else
    metricValue

/- Capability predicates shared by several metrics. -/

def hasCpuPredicate (spec : ContainerSpec) : Bool := spec.HasCpu

def hasMemoryPredicate (spec : ContainerSpec) : Bool := spec.HasMemory

def hasNetworkPredicate (spec : ContainerSpec) : Bool := spec.HasNetwork

def hasFilesystemPredicate (spec : ContainerSpec) (_stat : ContainerStats) : Bool :=
  spec.HasFilesystem

def hasDiskIoPredicate (spec : ContainerSpec) (_stat : ContainerStats) : Bool :=
  spec.HasDiskIo

def hasAcceleratorPredicate (_spec : ContainerSpec) (stat : ContainerStats) : Bool :=
  if stat.Accelerators.length == 0 then false else true

/- Labeled extraction functions.  Each mirrors the Go loop that appends one
entry per per-instance record to an initially empty result slice. -/

def filesystemUsageGetLabeledMetric (_now : Int) (_c : ContainerInfo)
    (stat : ContainerStats) : List LabeledMetric :=
  stat.Filesystem.foldl
    (fun result fs =>
      result ++
        [{ Name := "filesystem/usage",
           Labels := [(LabelResourceID.Key, fs.Device)],
           MetricValue :=
             { ValueType := ValueInt64, MetricType := MetricGauge,
               IntValue := toInt64 fs.Usage, FloatValue := 0 } }]) []

def filesystemLimitGetLabeledMetric (_now : Int) (_c : ContainerInfo)
    (stat : ContainerStats) : List LabeledMetric :=
  stat.Filesystem.foldl
    (fun result fs =>
      result ++
        [{ Name := "filesystem/limit",
           Labels := [(LabelResourceID.Key, fs.Device)],
           MetricValue :=
             { ValueType := ValueInt64, MetricType := MetricGauge,
               IntValue := toInt64 fs.Limit, FloatValue := 0 } }]) []

def filesystemInodesGetLabeledMetric (_now : Int) (_c : ContainerInfo)
    (stat : ContainerStats) : List LabeledMetric :=
  stat.Filesystem.foldl
    (fun result fs =>
      if fs.HasInodes then
        result ++
          [{ Name := "filesystem/inodes",
             Labels := [(LabelResourceID.Key, fs.Device)],
             MetricValue :=
               { ValueType := ValueInt64, MetricType := MetricGauge,
                 IntValue := toInt64 fs.Inodes, FloatValue := 0 } }]
      else result) []

def filesystemInodesFreeGetLabeledMetric (_now : Int) (_c : ContainerInfo)
    (stat : ContainerStats) : List LabeledMetric :=
  stat.Filesystem.foldl
    (fun result fs =>
      if fs.HasInodes then
        result ++
          [{ Name := "filesystem/inodes_free",
             Labels := [(LabelResourceID.Key, fs.Device)],
             MetricValue :=
               { ValueType := ValueInt64, MetricType := MetricGauge,
                 IntValue := toInt64 fs.InodesFree, FloatValue := 0 } }]
      else result) []

def diskIOReadGetLabeledMetric (_now : Int) (_info : ContainerInfo)
    (stat : ContainerStats) : List LabeledMetric :=
  stat.DiskIo.IoServiceBytes.foldl
    (fun result ioServiceBytesPerPartition =>
      let resourceIDKey :=
        if ioServiceBytesPerPartition.Device == "" then
          toString ioServiceBytesPerPartition.Major ++ ":" ++
            toString ioServiceBytesPerPartition.Minor
        else ioServiceBytesPerPartition.Device
      let value : Nat :=
        match ioServiceBytesPerPartition.Stats.lookup "Read" with
        | some v => v
        | none => 0
      result ++
        [{ Name := "disk/io_read_bytes",
           Labels := [(LabelResourceID.Key, resourceIDKey)],
           MetricValue :=
             { ValueType := ValueInt64, MetricType := MetricGauge,
               IntValue := toInt64 value, FloatValue := 0 } }]) []

def diskIOWriteGetLabeledMetric (_now : Int) (_info : ContainerInfo)
    (stat : ContainerStats) : List LabeledMetric :=
  stat.DiskIo.IoServiceBytes.foldl
    (fun result ioServiceBytesPerPartition =>
      let resourceIDKey :=
        if ioServiceBytesPerPartition.Device == "" then
          toString ioServiceBytesPerPartition.Major ++ ":" ++
            toString ioServiceBytesPerPartition.Minor
        else ioServiceBytesPerPartition.Device
      let value : Nat :=
        match ioServiceBytesPerPartition.Stats.lookup "Write" with
        | some v => v
        | none => 0
      result ++
        [{ Name := "disk/io_write_bytes",
           Labels := [(LabelResourceID.Key, resourceIDKey)],
           MetricValue :=
             { ValueType := ValueInt64, MetricType := MetricGauge,
               IntValue := toInt64 value, FloatValue := 0 } }]) []

def acceleratorMemoryTotalGetLabeledMetric (_now : Int) (_info : ContainerInfo)
    (stat : ContainerStats) : List LabeledMetric :=
  stat.Accelerators.foldl
    (fun result ac =>
      result ++
        [{ Name := "accelerator/memory_total",
           Labels := [(LabelAcceleratorMake.Key, ac.Make),
                      (LabelAcceleratorModel.Key, ac.Model),
                      (LabelAcceleratorID.Key, ac.ID)],
           MetricValue :=
             { ValueType := ValueInt64, MetricType := MetricGauge,
               IntValue := toInt64 ac.MemoryTotal, FloatValue := 0 } }]) []

def acceleratorMemoryUsedGetLabeledMetric (_now : Int) (_info : ContainerInfo)
    (stat : ContainerStats) : List LabeledMetric :=
  stat.Accelerators.foldl
    (fun result ac =>
      result ++
        [{ Name := "accelerator/memory_used",
           Labels := [(LabelAcceleratorMake.Key, ac.Make),
                      (LabelAcceleratorModel.Key, ac.Model),
                      (LabelAcceleratorID.Key, ac.ID)],
           MetricValue :=
             { ValueType := ValueInt64, MetricType := MetricGauge,
               IntValue := toInt64 ac.MemoryUsed, FloatValue := 0 } }]) []

def acceleratorDutyCycleGetLabeledMetric (_now : Int) (_info : ContainerInfo)
    (stat : ContainerStats) : List LabeledMetric :=
  stat.Accelerators.foldl
    (fun result ac =>
      result ++
        [{ Name := "accelerator/duty_cycle",
           Labels := [(LabelAcceleratorMake.Key, ac.Make),
                      (LabelAcceleratorModel.Key, ac.Model),
                      (LabelAcceleratorID.Key, ac.ID)],
           MetricValue :=
             { ValueType := ValueInt64, MetricType := MetricGauge,
               IntValue := toInt64 ac.DutyCycle, FloatValue := 0 } }]) []

/- Definition of Standard Metrics. -/

def MetricUptime : Metric :=
  { MetricDescriptor :=
      { Name := "uptime",
        Description := "Number of milliseconds since the container was started",
        Labels := [],
        Type' := MetricCumulative,
        ValueType := ValueInt64,
        Units := UnitsMilliseconds },
    HasValue := some uptimeHasValue,
    GetValue := some uptimeGetValue,
    HasLabeledMetric := none,
    GetLabeledMetric := none }

def MetricCpuUsage : Metric :=
  { MetricDescriptor :=
      { Name := "cpu/usage",
        Description := "Cumulative CPU usage on all cores",
        Labels := [],
        Type' := MetricCumulative,
        ValueType := ValueInt64,
        Units := UnitsNanoseconds },
    HasValue := some hasCpuPredicate,
    GetValue := some cpuUsageGetValue,
    HasLabeledMetric := none,
    GetLabeledMetric := none }

def MetricMemoryUsage : Metric :=
  { MetricDescriptor :=
      { Name := "memory/usage",
        Description := "Memory usage",
        Labels := [],
        Type' := MetricGauge,
        ValueType := ValueInt64,
        Units := UnitsBytes },
    HasValue := some hasMemoryPredicate,
    GetValue := some memoryUsageGetValue,
    HasLabeledMetric := none,
    GetLabeledMetric := none }

def MetricMemoryCache : Metric :=
  { MetricDescriptor :=
      { Name := "memory/cache",
        Description := "Cache memory",
        Labels := [],
        Type' := MetricGauge,
        ValueType := ValueInt64,
        Units := UnitsBytes },
    HasValue := some hasMemoryPredicate,
    GetValue := some memoryCacheGetValue,
    HasLabeledMetric := none,
    GetLabeledMetric := none }

def MetricMemoryRSS : Metric :=
  { MetricDescriptor :=
      { Name := "memory/rss",
        Description := "RSS memory",
        Labels := [],
        Type' := MetricGauge,
        ValueType := ValueInt64,
        Units := UnitsBytes },
    HasValue := some hasMemoryPredicate,
    GetValue := some memoryRSSGetValue,
    HasLabeledMetric := none,
    GetLabeledMetric := none }

def MetricMemoryWorkingSet : Metric :=
  { MetricDescriptor :=
      { Name := "memory/working_set",
        Description := "Working set memory. Working set is the memory being used and not easily dropped by the kernel",
        Labels := [],
        Type' := MetricGauge,
        ValueType := ValueInt64,
        Units := UnitsBytes },
    HasValue := some hasMemoryPredicate,
    GetValue := some memoryWorkingSetGetValue,
    HasLabeledMetric := none,
    GetLabeledMetric := none }

def MetricMemoryPageFaults : Metric :=
  { MetricDescriptor :=
      { Name := "memory/page_faults",
        Description := "Number of page faults",
        Labels := [],
        Type' := MetricCumulative,
        ValueType := ValueInt64,
        Units := UnitsCount },
    HasValue := some hasMemoryPredicate,
    GetValue := some memoryPageFaultsGetValue,
    HasLabeledMetric := none,
    GetLabeledMetric := none }

def MetricMemoryMajorPageFaults : Metric :=
  { MetricDescriptor :=
      { Name := "memory/major_page_faults",
        Description := "Number of major page faults",
        Labels := [],
        Type' := MetricCumulative,
        ValueType := ValueInt64,
        Units := UnitsCount },
    HasValue := some hasMemoryPredicate,
    GetValue := some memoryMajorPageFaultsGetValue,
    HasLabeledMetric := none,
    GetLabeledMetric := none }

def MetricNetworkRx : Metric :=
  { MetricDescriptor :=
      { Name := "network/rx",
        Description := "Cumulative number of bytes received over the network",
        Labels := [],
        Type' := MetricCumulative,
        ValueType := ValueInt64,
        Units := UnitsBytes },
    HasValue := some hasNetworkPredicate,
    GetValue := some networkRxGetValue,
    HasLabeledMetric := none,
    GetLabeledMetric := none }

def MetricNetworkRxErrors : Metric :=
  { MetricDescriptor :=
      { Name := "network/rx_errors",
        Description := "Cumulative number of errors while receiving over the network",
        Labels := [],
        Type' := MetricCumulative,
        ValueType := ValueInt64,
        Units := UnitsCount },
    HasValue := some hasNetworkPredicate,
    GetValue := some networkRxErrorsGetValue,
    HasLabeledMetric := none,
    GetLabeledMetric := none }

def MetricNetworkTx : Metric :=
  { MetricDescriptor :=
      { Name := "network/tx",
        Description := "Cumulative number of bytes sent over the network",
        Labels := [],
        Type' := MetricCumulative,
        ValueType := ValueInt64,
        Units := UnitsBytes },
    HasValue := some hasNetworkPredicate,
    GetValue := some networkTxGetValue,
    HasLabeledMetric := none,
    GetLabeledMetric := none }

def MetricNetworkTxErrors : Metric :=
  { MetricDescriptor :=
      { Name := "network/tx_errors",
        Description := "Cumulative number of errors while sending over the network",
        Labels := [],
        Type' := MetricCumulative,
        ValueType := ValueInt64,
        Units := UnitsCount },
    HasValue := some hasNetworkPredicate,
    GetValue := some networkTxErrorsGetValue,
    HasLabeledMetric := none,
    GetLabeledMetric := none }

/- Definition of Additional Metrics (descriptor-only). -/

def MetricCpuRequest : Metric :=
  { MetricDescriptor :=
      { Name := "cpu/request",
        Description := "CPU request (the guaranteed amount of resources) in millicores. This metric is Kubernetes specific.",
        Labels := [],
        Type' := MetricGauge,
        ValueType := ValueInt64,
        Units := UnitsCount },
    HasValue := none, GetValue := none,
    HasLabeledMetric := none, GetLabeledMetric := none }

def MetricCpuLimit : Metric :=
  { MetricDescriptor :=
      { Name := "cpu/limit",
        Description := "CPU hard limit in millicores.",
        Labels := [],
        Type' := MetricGauge,
        ValueType := ValueInt64,
        Units := UnitsCount },
    HasValue := none, GetValue := none,
    HasLabeledMetric := none, GetLabeledMetric := none }

def MetricMemoryRequest : Metric :=
  { MetricDescriptor :=
      { Name := "memory/request",
        Description := "Memory request (the guaranteed amount of resources) in bytes. This metric is Kubernetes specific.",
        Labels := [],
        Type' := MetricGauge,
        ValueType := ValueInt64,
        Units := UnitsBytes },
    HasValue := none, GetValue := none,
    HasLabeledMetric := none, GetLabeledMetric := none }

def MetricMemoryLimit : Metric :=
  { MetricDescriptor :=
      { Name := "memory/limit",
        Description := "Memory hard limit in bytes.",
        Labels := [],
        Type' := MetricGauge,
        ValueType := ValueInt64,
        Units := UnitsBytes },
    HasValue := none, GetValue := none,
    HasLabeledMetric := none, GetLabeledMetric := none }

/- Definition of Rate Metrics (descriptor-only; values computed downstream). -/

def MetricCpuUsageRate : Metric :=
  { MetricDescriptor :=
      { Name := "cpu/usage_rate",
        Description := "CPU usage on all cores in millicores",
        Labels := [],
        Type' := MetricGauge,
        ValueType := ValueInt64,
        Units := UnitsCount },
    HasValue := none, GetValue := none,
    HasLabeledMetric := none, GetLabeledMetric := none }

def MetricNetworkRxRate : Metric :=
  { MetricDescriptor :=
      { Name := "network/rx_rate",
        Description := "Rate of bytes received over the network in bytes per second",
        Labels := [],
        Type' := MetricGauge,
        ValueType := ValueFloat,
        Units := UnitsCount },
    HasValue := none, GetValue := none,
    HasLabeledMetric := none, GetLabeledMetric := none }

def MetricNetworkTxRate : Metric :=
  { MetricDescriptor :=
      { Name := "network/tx_rate",
        Description := "Rate of bytes transmitted over the network in bytes per second",
        Labels := [],
        Type' := MetricGauge,
        ValueType := ValueFloat,
        Units := UnitsCount },
    HasValue := none, GetValue := none,
    HasLabeledMetric := none, GetLabeledMetric := none }

/- Node autoscaling metrics (descriptor-only). -/

def MetricNodeCpuCapacity : Metric :=
  { MetricDescriptor :=
      { Name := "cpu/node_capacity",
        Description := "Cpu capacity of a node",
        Labels := [],
        Type' := MetricGauge,
        ValueType := ValueFloat,
        Units := UnitsCount },
    HasValue := none, GetValue := none,
    HasLabeledMetric := none, GetLabeledMetric := none }

def MetricNodeMemoryCapacity : Metric :=
  { MetricDescriptor :=
      { Name := "memory/node_capacity",
        Description := "Memory capacity of a node",
        Labels := [],
        Type' := MetricGauge,
        ValueType := ValueFloat,
        Units := UnitsCount },
    HasValue := none, GetValue := none,
    HasLabeledMetric := none, GetLabeledMetric := none }

def MetricNodeCpuAllocatable : Metric :=
  { MetricDescriptor :=
      { Name := "cpu/node_allocatable",
        Description := "Cpu allocatable of a node",
        Labels := [],
        Type' := MetricGauge,
        ValueType := ValueFloat,
        Units := UnitsCount },
    HasValue := none, GetValue := none,
    HasLabeledMetric := none, GetLabeledMetric := none }

def MetricNodeMemoryAllocatable : Metric :=
  { MetricDescriptor :=
      { Name := "memory/node_allocatable",
        Description := "Memory allocatable of a node",
        Labels := [],
        Type' := MetricGauge,
        ValueType := ValueFloat,
        Units := UnitsCount },
    HasValue := none, GetValue := none,
    HasLabeledMetric := none, GetLabeledMetric := none }

def MetricNodeCpuUtilization : Metric :=
  { MetricDescriptor :=
      { Name := "cpu/node_utilization",
        Description := "Cpu utilization as a share of node capacity",
        Labels := [],
        Type' := MetricGauge,
        ValueType := ValueFloat,
        Units := UnitsCount },
    HasValue := none, GetValue := none,
    HasLabeledMetric := none, GetLabeledMetric := none }

def MetricNodeMemoryUtilization : Metric :=
  { MetricDescriptor :=
      { Name := "memory/node_utilization",
        Description := "Memory utilization as a share of memory capacity",
        Labels := [],
        Type' := MetricGauge,
        ValueType := ValueFloat,
        Units := UnitsCount },
    HasValue := none, GetValue := none,
    HasLabeledMetric := none, GetLabeledMetric := none }

def MetricNodeCpuReservation : Metric :=
  { MetricDescriptor :=
      { Name := "cpu/node_reservation",
        Description := "Share of cpu that is reserved on the node",
        Labels := [],
        Type' := MetricGauge,
        ValueType := ValueFloat,
        Units := UnitsCount },
    HasValue := none, GetValue := none,
    HasLabeledMetric := none, GetLabeledMetric := none }

def MetricNodeMemoryReservation : Metric :=
  { MetricDescriptor :=
      { Name := "memory/node_reservation",
        Description := "Share of memory that is reserved on the node",
        Labels := [],
        Type' := MetricGauge,
        ValueType := ValueFloat,
        Units := UnitsCount },
    HasValue := none, GetValue := none,
    HasLabeledMetric := none, GetLabeledMetric := none }

/- Labeled metrics. -/

def MetricFilesystemUsage : Metric :=
  { MetricDescriptor :=
      { Name := "filesystem/usage",
        Description := "Total number of bytes consumed on a filesystem",
        Labels := metricLabels,
        Type' := MetricGauge,
        ValueType := ValueInt64,
        Units := UnitsBytes },
    HasValue := none, GetValue := none,
    HasLabeledMetric := some hasFilesystemPredicate,
    GetLabeledMetric := some filesystemUsageGetLabeledMetric }

def MetricFilesystemLimit : Metric :=
  { MetricDescriptor :=
      { Name := "filesystem/limit",
        Description := "The total size of filesystem in bytes",
        Labels := metricLabels,
        Type' := MetricGauge,
        ValueType := ValueInt64,
        Units := UnitsBytes },
    HasValue := none, GetValue := none,
    HasLabeledMetric := some hasFilesystemPredicate,
    GetLabeledMetric := some filesystemLimitGetLabeledMetric }

def MetricFilesystemAvailable : Metric :=
  { MetricDescriptor :=
      { Name := "filesystem/available",
        Description := "The number of available bytes remaining in a the filesystem",
        Labels := metricLabels,
        Type' := MetricGauge,
        ValueType := ValueInt64,
        Units := UnitsBytes },
    HasValue := none, GetValue := none,
    HasLabeledMetric := none, GetLabeledMetric := none }

def MetricFilesystemInodes : Metric :=
  { MetricDescriptor :=
      { Name := "filesystem/inodes",
        Description := "Total number of inodes on a filesystem",
        Labels := metricLabels,
        Type' := MetricGauge,
        ValueType := ValueInt64,
        Units := UnitsBytes },
    HasValue := none, GetValue := none,
    HasLabeledMetric := some hasFilesystemPredicate,
    GetLabeledMetric := some filesystemInodesGetLabeledMetric }

def MetricFilesystemInodesFree : Metric :=
  { MetricDescriptor :=
      { Name := "filesystem/inodes_free",
        Description := "Free number of inodes on a filesystem",
        Labels := metricLabels,
        Type' := MetricGauge,
        ValueType := ValueInt64,
        Units := UnitsBytes },
    HasValue := none, GetValue := none,
    HasLabeledMetric := some hasFilesystemPredicate,
    GetLabeledMetric := some filesystemInodesFreeGetLabeledMetric }

def MetricDiskIORead : Metric :=
  { MetricDescriptor :=
      { Name := "disk/io_read_bytes",
        Description := "Cumulative number of bytes read over disk",
        Labels := metricLabels,
        Type' := MetricCumulative,
        ValueType := ValueInt64,
        Units := UnitsBytes },
    HasValue := none, GetValue := none,
    HasLabeledMetric := some hasDiskIoPredicate,
    GetLabeledMetric := some diskIOReadGetLabeledMetric }

def MetricDiskIOWrite : Metric :=
  { MetricDescriptor :=
      { Name := "disk/io_write_bytes",
        Description := "Cumulative number of bytes write over disk",
        Labels := metricLabels,
        Type' := MetricCumulative,
        ValueType := ValueInt64,
        Units := UnitsBytes },
    HasValue := none, GetValue := none,
    HasLabeledMetric := some hasDiskIoPredicate,
    GetLabeledMetric := some diskIOWriteGetLabeledMetric }

def MetricDiskIOReadRate : Metric :=
  { MetricDescriptor :=
      { Name := "disk/io_read_bytes_rate",
        Description := "Rate of bytes read over disk in bytes per second",
        Labels := metricLabels,
        Type' := MetricGauge,
        ValueType := ValueFloat,
        Units := UnitsCount },
    HasValue := none, GetValue := none,
    HasLabeledMetric := none, GetLabeledMetric := none }

def MetricDiskIOWriteRate : Metric :=
  { MetricDescriptor :=
      { Name := "disk/io_write_bytes_rate",
        Description := "Rate of bytes written over disk in bytes per second",
        Labels := metricLabels,
        Type' := MetricGauge,
        ValueType := ValueFloat,
        Units := UnitsCount },
    HasValue := none, GetValue := none,
    HasLabeledMetric := none, GetLabeledMetric := none }

def MetricAcceleratorMemoryTotal : Metric :=
  { MetricDescriptor :=
      { Name := "accelerator/memory_total",
        Description := "Total accelerator memory (in bytes)",
        Labels := acceleratorLabels,
        Type' := MetricGauge,
        ValueType := ValueInt64,
        Units := UnitsBytes },
    HasValue := none, GetValue := none,
    HasLabeledMetric := some hasAcceleratorPredicate,
    GetLabeledMetric := some acceleratorMemoryTotalGetLabeledMetric }

def MetricAcceleratorMemoryUsed : Metric :=
  { MetricDescriptor :=
      { Name := "accelerator/memory_used",
        Description := "Total accelerator memory allocated (in bytes)",
        Labels := acceleratorLabels,
        Type' := MetricGauge,
        ValueType := ValueInt64,
        Units := UnitsBytes },
    HasValue := none, GetValue := none,
    HasLabeledMetric := some hasAcceleratorPredicate,
    GetLabeledMetric := some acceleratorMemoryUsedGetLabeledMetric }

def MetricAcceleratorDutyCycle : Metric :=
  { MetricDescriptor :=
      { Name := "accelerator/duty_cycle",
        Description := "Percent of time over the past sample period (10s) during which the accelerator was actively processing",
        Labels := acceleratorLabels,
        Type' := MetricGauge,
        ValueType := ValueInt64,
        Units := UnitsCount },
    HasValue := none, GetValue := none,
    HasLabeledMetric := some hasAcceleratorPredicate,
    GetLabeledMetric := some acceleratorDutyCycleGetLabeledMetric }

/- Grouped metric lists, exactly as declared in the source (including the
repeated MetricMemoryRSS / MetricMemoryCache entries of StandardMetrics). -/

def StandardMetrics : List Metric :=
  [MetricUptime,
   MetricCpuUsage,
   MetricMemoryCache,
   MetricMemoryRSS,
   MetricMemoryUsage,
   MetricMemoryRSS,
   MetricMemoryCache,
   MetricMemoryWorkingSet,
   MetricMemoryPageFaults,
   MetricMemoryMajorPageFaults,
   MetricNetworkRx,
   MetricNetworkRxErrors,
   MetricNetworkTx,
   MetricNetworkTxErrors]

def AdditionalMetrics : List Metric :=
  [MetricCpuRequest,
   MetricCpuLimit,
   MetricMemoryRequest,
   MetricMemoryLimit]

def RateMetrics : List Metric :=
  [MetricCpuUsageRate,
   MetricNetworkRxRate,
   MetricNetworkTxRate,
   MetricDiskIOReadRate,
   MetricDiskIOWriteRate]

/-- Go map literal with distinct keys, modelled as an association list in
literal order; lookup is `List.lookup`. -/
def RateMetricsMapping : List (String × Metric) :=
  [(MetricCpuUsage.MetricDescriptor.Name, MetricCpuUsageRate),
   (MetricNetworkRx.MetricDescriptor.Name, MetricNetworkRxRate),
   (MetricNetworkTx.MetricDescriptor.Name, MetricNetworkTxRate),
   (MetricDiskIORead.MetricDescriptor.Name, MetricDiskIOReadRate),
   (MetricDiskIOWrite.MetricDescriptor.Name, MetricDiskIOWriteRate)]

def LabeledMetrics : List Metric :=
  [MetricDiskIORead,
   MetricDiskIOReadRate,
   MetricDiskIOWrite,
   MetricDiskIOWriteRate,
   MetricFilesystemUsage,
   MetricFilesystemLimit,
   MetricFilesystemAvailable,
   MetricFilesystemInodes,
   MetricFilesystemInodesFree,
   MetricAcceleratorMemoryTotal,
   MetricAcceleratorMemoryUsed,
   MetricAcceleratorDutyCycle]

def NodeAutoscalingMetrics : List Metric :=
  [MetricNodeCpuCapacity,
   MetricNodeMemoryCapacity,
   MetricNodeCpuAllocatable,
   MetricNodeMemoryAllocatable,
   MetricNodeCpuUtilization,
   MetricNodeMemoryUtilization,
   MetricNodeCpuReservation,
   MetricNodeMemoryReservation]

def CpuMetrics : List Metric :=
  [MetricCpuLimit,
   MetricCpuRequest,
   MetricCpuUsage,
   MetricCpuUsageRate,
   MetricNodeCpuAllocatable,
   MetricNodeCpuCapacity,
   MetricNodeCpuReservation,
   MetricNodeCpuUtilization]

def FilesystemMetrics : List Metric :=
  [MetricFilesystemAvailable,
   MetricFilesystemLimit,
   MetricFilesystemUsage,
   MetricFilesystemInodes,
   MetricFilesystemInodesFree]

def MemoryMetrics : List Metric :=
  [MetricMemoryLimit,
   MetricMemoryMajorPageFaults,
   MetricMemoryPageFaults,
   MetricMemoryRequest,
   MetricMemoryUsage,
   MetricMemoryRSS,
   MetricMemoryCache,
   MetricMemoryWorkingSet,
   MetricNodeMemoryAllocatable,
   MetricNodeMemoryCapacity,
   MetricNodeMemoryUtilization,
   MetricNodeMemoryReservation]

def NetworkMetrics : List Metric :=
  [MetricNetworkRx,
   MetricNetworkRxErrors,
   MetricNetworkRxRate,
   MetricNetworkTx,
   MetricNetworkTxErrors,
   MetricNetworkTxRate]

/-- Go `type MetricFamily string`. -/
abbrev MetricFamily := String

def MetricFamilyCpu : MetricFamily := "cpu"

def MetricFamilyFilesystem : MetricFamily := "filesystem"

def MetricFamilyMemory : MetricFamily := "memory"

def MetricFamilyNetwork : MetricFamily := "network"

def MetricFamilyGeneral : MetricFamily := "general"

/-- The Go `MetricFamilies` map, recorded in declaration order.  Go iterates
maps in unspecified order; the family-partition theorem shows the scan result
is the same for every permutation of this table. -/
def MetricFamilies : List (MetricFamily × List Metric) :=
  [(MetricFamilyCpu, CpuMetrics),
   (MetricFamilyFilesystem, FilesystemMetrics),
   (MetricFamilyMemory, MemoryMetrics),
   (MetricFamilyNetwork, NetworkMetrics)]

/-- The nested loops of `MetricFamilyForName`: return the first family whose
list contains the name, else the General family. -/
def metricFamilyScan (table : List (MetricFamily × List Metric))
    (metricName : String) : MetricFamily :=
  match table with
  | [] => MetricFamilyGeneral
  | (family, ms) :: rest =>
    if ms.any (fun metric => metric.Name == metricName) then family
    else metricFamilyScan rest metricName

def MetricFamilyForName (metricName : String) : MetricFamily :=
  metricFamilyScan MetricFamilies metricName

/-- `AllMetrics` as in the source: the four appends chain StandardMetrics,
AdditionalMetrics, RateMetrics, LabeledMetrics and NodeAutoscalingMetrics. -/
def AllMetrics : List Metric :=
  ((((StandardMetrics ++ AdditionalMetrics) ++ RateMetrics) ++ LabeledMetrics) ++
    NodeAutoscalingMetrics)

def IsNodeAutoscalingMetric (name : String) : Bool :=
  NodeAutoscalingMetrics.any
    (fun autoscalingMetric => autoscalingMetric.MetricDescriptor.Name == name)

/- Helper lemmas about the append-loop shape shared by the labeled
extractors. -/

theorem foldl_append_if {α β : Type} (p : α → Bool) (g : α → β) :
    ∀ (l : List α) (acc : List β),
      l.foldl (fun r a => if p a then r ++ [g a] else r) acc
        = acc ++ (l.filter p).map g
  | [], acc => by simp
  | a :: l, acc => by
    cases h : p a <;>
      simp [List.foldl_cons, h, List.filter_cons, foldl_append_if p g l]

theorem foldl_append_map {α β : Type} (g : α → β) :
    ∀ (l : List α) (acc : List β),
      l.foldl (fun r a => r ++ [g a]) acc = acc ++ l.map g
  | [], acc => by simp
  | a :: l, acc => by
    simp [List.foldl_cons, foldl_append_map g l]

/-- The inodes extractor emits exactly one entry per filesystem record with
inode support, in order. -/
theorem filesystemInodes_eq_map (now : Int) (c : ContainerInfo) (stat : ContainerStats) :
    filesystemInodesGetLabeledMetric now c stat
      = (stat.Filesystem.filter (fun fs => fs.HasInodes)).map (fun fs =>
          { Name := "filesystem/inodes",
            Labels := [(LabelResourceID.Key, fs.Device)],
            MetricValue :=
              { ValueType := ValueInt64, MetricType := MetricGauge,
                IntValue := toInt64 fs.Inodes, FloatValue := 0 } }) :=
  (foldl_append_if _ _ stat.Filesystem []).trans (List.nil_append _)

/-- The free-inodes extractor emits exactly one entry per filesystem record
with inode support, in order. -/
theorem filesystemInodesFree_eq_map (now : Int) (c : ContainerInfo) (stat : ContainerStats) :
    filesystemInodesFreeGetLabeledMetric now c stat
      = (stat.Filesystem.filter (fun fs => fs.HasInodes)).map (fun fs =>
          { Name := "filesystem/inodes_free",
            Labels := [(LabelResourceID.Key, fs.Device)],
            MetricValue :=
              { ValueType := ValueInt64, MetricType := MetricGauge,
                IntValue := toInt64 fs.InodesFree, FloatValue := 0 } }) :=
  (foldl_append_if _ _ stat.Filesystem []).trans (List.nil_append _)

/-- The disk read extractor emits one entry per partition record, in order. -/
theorem diskIORead_eq_map (now : Int) (c : ContainerInfo) (stat : ContainerStats) :
    diskIOReadGetLabeledMetric now c stat
      = stat.DiskIo.IoServiceBytes.map (fun d =>
          { Name := "disk/io_read_bytes",
            Labels := [(LabelResourceID.Key,
              if d.Device == "" then toString d.Major ++ ":" ++ toString d.Minor
              else d.Device)],
            MetricValue :=
              { ValueType := ValueInt64, MetricType := MetricGauge,
                IntValue := toInt64 (match d.Stats.lookup "Read" with
                  | some v => v
                  | none => 0),
                FloatValue := 0 } }) :=
  (foldl_append_map _ stat.DiskIo.IoServiceBytes []).trans (List.nil_append _)

/-- The disk write extractor emits one entry per partition record, in order. -/
theorem diskIOWrite_eq_map (now : Int) (c : ContainerInfo) (stat : ContainerStats) :
    diskIOWriteGetLabeledMetric now c stat
      = stat.DiskIo.IoServiceBytes.map (fun d =>
          { Name := "disk/io_write_bytes",
            Labels := [(LabelResourceID.Key,
              if d.Device == "" then toString d.Major ++ ":" ++ toString d.Minor
              else d.Device)],
            MetricValue :=
              { ValueType := ValueInt64, MetricType := MetricGauge,
                IntValue := toInt64 (match d.Stats.lookup "Write" with
                  | some v => v
                  | none => 0),
                FloatValue := 0 } }) :=
  (foldl_append_map _ stat.DiskIo.IoServiceBytes []).trans (List.nil_append _)

/- Lemmas about the family scan, used to show the Go map-iteration order
cannot change the result. -/

theorem find?_perm_of_unique {α : Type} {p : α → Bool} {l l' : List α} (h : l.Perm l')
    (uniq : ∀ a ∈ l, ∀ b ∈ l, p a = true → p b = true → a = b) :
    l.find? p = l'.find? p := by
  cases hf : l.find? p with
  | some a =>
    have hpa : p a = true := List.find?_some hf
    have hma : a ∈ l := List.mem_of_find?_eq_some hf
    cases hf' : l'.find? p with
    | some b =>
      have hpb : p b = true := List.find?_some hf'
      have hmb' : b ∈ l := h.mem_iff.mpr (List.mem_of_find?_eq_some hf')
      exact (uniq a hma b hmb' hpa hpb) ▸ rfl
    | none =>
      exact absurd hpa (by simpa using List.find?_eq_none.mp hf' a (h.mem_iff.mp hma))
  | none =>
    cases hf' : l'.find? p with
    | some b =>
      have hpb : p b = true := List.find?_some hf'
      have hmb : b ∈ l := h.mem_iff.mpr (List.mem_of_find?_eq_some hf')
      exact absurd hpb (by simpa using List.find?_eq_none.mp hf b hmb)
    | none => rfl

/-- The nested family loops are the first-match search over the table. -/
theorem metricFamilyScan_eq_find (table : List (MetricFamily × List Metric)) (n : String) :
    metricFamilyScan table n
      = ((table.find? (fun q => q.2.any (fun metric => metric.Name == n))).map
          Prod.fst).getD MetricFamilyGeneral := by
  induction table with
  | nil => rfl
  | cons q rest ih =>
    obtain ⟨family, ms⟩ := q
    by_cases h : ms.any (fun metric => metric.Name == n) = true
    · simp [metricFamilyScan, List.find?_cons_of_pos, h]
    · rw [metricFamilyScan, if_neg h, List.find?_cons_of_neg _ (by simpa using h), ih]

/-- A name contained in no family list scans to the General family. -/
theorem metricFamilyScan_eq_general (table : List (MetricFamily × List Metric)) (n : String)
    (h : ∀ q ∈ table, ∀ m ∈ q.2, m.Name ≠ n) :
    metricFamilyScan table n = MetricFamilyGeneral := by
  induction table with
  | nil => rfl
  | cons q rest ih =>
    obtain ⟨family, ms⟩ := q
    have hms : ms.any (fun metric => metric.Name == n) = false := by
      rw [List.any_eq_false]
      intro m hm
      simpa using h (family, ms) (List.mem_cons_self _ _) m hm
    rw [metricFamilyScan, if_neg (by simp [hms])]
    exact ih (fun q hq => h q (List.mem_cons_of_mem _ hq))

/-- Two metric lists whose name sets are disjoint cannot both contain a
given name. -/
theorem no_common_name {A B : List Metric}
    (hdisj : ∀ m ∈ A, ∀ m' ∈ B, m.Name ≠ m'.Name) {n : String}
    (hA : A.any (fun m => m.Name == n) = true)
    (hB : B.any (fun m => m.Name == n) = true) : False := by
  obtain ⟨m, hm, hmn⟩ := List.any_eq_true.mp hA
  obtain ⟨m', hm', hmn'⟩ := List.any_eq_true.mp hB
  exact hdisj m hm m' hm' (by rw [eq_of_beq hmn, eq_of_beq hmn'])

theorem disjoint_names_symm {A B : List Metric}
    (h : ∀ m ∈ A, ∀ m' ∈ B, m.Name ≠ m'.Name) :
    ∀ m ∈ B, ∀ m' ∈ A, m.Name ≠ m'.Name :=
  fun m hm m' hm' hne => h m' hm' m hm hne.symm

theorem cpu_fs_names_disjoint :
    ∀ m ∈ CpuMetrics, ∀ m' ∈ FilesystemMetrics, m.Name ≠ m'.Name := by decide

theorem cpu_mem_names_disjoint :
    ∀ m ∈ CpuMetrics, ∀ m' ∈ MemoryMetrics, m.Name ≠ m'.Name := by decide

theorem cpu_net_names_disjoint :
    ∀ m ∈ CpuMetrics, ∀ m' ∈ NetworkMetrics, m.Name ≠ m'.Name := by decide

theorem fs_mem_names_disjoint :
    ∀ m ∈ FilesystemMetrics, ∀ m' ∈ MemoryMetrics, m.Name ≠ m'.Name := by decide

theorem fs_net_names_disjoint :
    ∀ m ∈ FilesystemMetrics, ∀ m' ∈ NetworkMetrics, m.Name ≠ m'.Name := by decide

theorem mem_net_names_disjoint :
    ∀ m ∈ MemoryMetrics, ∀ m' ∈ NetworkMetrics, m.Name ≠ m'.Name := by decide

/-- For any name, at most one entry of the family table matches: the four
per-family lists are pairwise disjoint by name. -/
theorem families_unique_match (n : String) :
    ∀ a ∈ MetricFamilies, ∀ b ∈ MetricFamilies,
      a.2.any (fun m => m.Name == n) = true →
      b.2.any (fun m => m.Name == n) = true → a = b := by
  intro a ha b hb hpa hpb
  simp only [MetricFamilies, List.mem_cons, List.not_mem_nil, or_false] at ha hb
  rcases ha with rfl | rfl | rfl | rfl <;> rcases hb with rfl | rfl | rfl | rfl
  · rfl
  · exact (no_common_name cpu_fs_names_disjoint hpa hpb).elim
  · exact (no_common_name cpu_mem_names_disjoint hpa hpb).elim
  · exact (no_common_name cpu_net_names_disjoint hpa hpb).elim
  · exact (no_common_name (disjoint_names_symm cpu_fs_names_disjoint) hpa hpb).elim
  · rfl
  · exact (no_common_name fs_mem_names_disjoint hpa hpb).elim
  · exact (no_common_name fs_net_names_disjoint hpa hpb).elim
  · exact (no_common_name (disjoint_names_symm cpu_mem_names_disjoint) hpa hpb).elim
  · exact (no_common_name (disjoint_names_symm fs_mem_names_disjoint) hpa hpb).elim
  · rfl
  · exact (no_common_name mem_net_names_disjoint hpa hpb).elim
  · exact (no_common_name (disjoint_names_symm cpu_net_names_disjoint) hpa hpb).elim
  · exact (no_common_name (disjoint_names_symm fs_net_names_disjoint) hpa hpb).elim
  · exact (no_common_name (disjoint_names_symm mem_net_names_disjoint) hpa hpb).elim
  · rfl

/- Concrete sample inputs used by witnesses and counterexamples. -/

def sampleSpec : ContainerSpec :=
  { CreationTime := 0, HasCpu := true, HasMemory := true, HasNetwork := true,
    HasFilesystem := true, HasDiskIo := true }

/-- An individual (non-aggregate) entity. -/
def sampleInfo : ContainerInfo := { Spec := sampleSpec, IsAggregate := false }

/-- An aggregate ("node") entity. -/
def nodeInfo : ContainerInfo := { Spec := sampleSpec, IsAggregate := true }

def emptyStats : ContainerStats :=
  { Cpu := { Usage := { Total := 0 } },
    Memory := { Usage := 0, Cache := 0, RSS := 0, WorkingSet := 0,
                ContainerData := { Pgfault := 0, Pgmajfault := 0 } },
    Network := { Interfaces := [] },
    Filesystem := [],
    DiskIo := { IoServiceBytes := [] },
    Accelerators := [] }

/-- A snapshot with nonzero raw fields everywhere the gated scalar metrics
read. -/
def richStats : ContainerStats :=
  { Cpu := { Usage := { Total := 123456 } },
    Memory := { Usage := 1048576, Cache := 2048, RSS := 4096, WorkingSet := 8192,
                ContainerData := { Pgfault := 17, Pgmajfault := 5 } },
    Network := { Interfaces := [{ RxBytes := 100, RxErrors := 2, TxBytes := 300, TxErrors := 4 }] },
    Filesystem := [{ Device := "/dev/sda1", Usage := 10, Limit := 100,
                     HasInodes := true, Inodes := 1000, InodesFree := 900 }],
    DiskIo := { IoServiceBytes :=
      [{ Device := "sda", Major := 8, Minor := 0, Stats := [("Read", 100), ("Write", 200)] }] },
    Accelerators := [] }

/-- One disk partition record whose operation map holds only "Write": 500. -/
def writeOnlyDiskStats : ContainerStats :=
  { emptyStats with DiskIo := { IoServiceBytes :=
      [{ Device := "sda", Major := 8, Minor := 0, Stats := [("Write", 500)] }] } }

/-- One disk partition record with an empty device name and major=8,
minor=1. -/
def disk81Stats : ContainerStats :=
  { emptyStats with DiskIo := { IoServiceBytes :=
      [{ Device := "", Major := 8, Minor := 1, Stats := [("Write", 500)] }] } }

/-- One filesystem record without inode support. -/
def noInodeStats : ContainerStats :=
  { emptyStats with Filesystem :=
      [{ Device := "/dev/sdb1", Usage := 5, Limit := 10, HasInodes := false,
         Inodes := 0, InodesFree := 0 }] }

/-- C1: node suppression.  The eleven gated scalar metrics are wired to the
named extractors, and each extractor returns IntValue exactly 0 whenever the
entity is an aggregate (node), whatever the ambient clock and however the
raw snapshot fields are populated. -/
theorem node_suppression_zero :
    (MetricCpuUsage.GetValue = some cpuUsageGetValue
      ∧ MetricMemoryUsage.GetValue = some memoryUsageGetValue
      ∧ MetricMemoryCache.GetValue = some memoryCacheGetValue
      ∧ MetricMemoryRSS.GetValue = some memoryRSSGetValue
      ∧ MetricMemoryWorkingSet.GetValue = some memoryWorkingSetGetValue
      ∧ MetricMemoryPageFaults.GetValue = some memoryPageFaultsGetValue
      ∧ MetricMemoryMajorPageFaults.GetValue = some memoryMajorPageFaultsGetValue
      ∧ MetricNetworkRx.GetValue = some networkRxGetValue
      ∧ MetricNetworkRxErrors.GetValue = some networkRxErrorsGetValue
      ∧ MetricNetworkTx.GetValue = some networkTxGetValue
      ∧ MetricNetworkTxErrors.GetValue = some networkTxErrorsGetValue)
    ∧ (∀ (now : Int) (c : ContainerInfo) (stat : ContainerStats),
        metrics.IsNode c = true →
        (cpuUsageGetValue now c stat).IntValue = 0
        ∧ (memoryUsageGetValue now c stat).IntValue = 0
        ∧ (memoryCacheGetValue now c stat).IntValue = 0
        ∧ (memoryRSSGetValue now c stat).IntValue = 0
        ∧ (memoryWorkingSetGetValue now c stat).IntValue = 0
        ∧ (memoryPageFaultsGetValue now c stat).IntValue = 0
        ∧ (memoryMajorPageFaultsGetValue now c stat).IntValue = 0
        ∧ (networkRxGetValue now c stat).IntValue = 0
        ∧ (networkRxErrorsGetValue now c stat).IntValue = 0
        ∧ (networkTxGetValue now c stat).IntValue = 0
        ∧ (networkTxErrorsGetValue now c stat).IntValue = 0) := by
  refine ⟨⟨rfl, rfl, rfl, rfl, rfl, rfl, rfl, rfl, rfl, rfl, rfl⟩, ?_⟩
  intro now c stat h
  refine ⟨?_, ?_, ?_, ?_, ?_, ?_, ?_, ?_, ?_, ?_, ?_⟩ <;>
    simp [cpuUsageGetValue, memoryUsageGetValue, memoryCacheGetValue,
      memoryRSSGetValue, memoryWorkingSetGetValue, memoryPageFaultsGetValue,
      memoryMajorPageFaultsGetValue, networkRxGetValue, networkRxErrorsGetValue,
      networkTxGetValue, networkTxErrorsGetValue, h]

/-- C1 witness: at an aggregate entity with nonzero raw snapshot fields, all
eleven gated extractors report 0. -/
theorem node_suppression_zero_witness :
    (cpuUsageGetValue 7 nodeInfo richStats).IntValue = 0
    ∧ (memoryUsageGetValue 7 nodeInfo richStats).IntValue = 0
    ∧ (memoryCacheGetValue 7 nodeInfo richStats).IntValue = 0
    ∧ (memoryRSSGetValue 7 nodeInfo richStats).IntValue = 0
    ∧ (memoryWorkingSetGetValue 7 nodeInfo richStats).IntValue = 0
    ∧ (memoryPageFaultsGetValue 7 nodeInfo richStats).IntValue = 0
    ∧ (memoryMajorPageFaultsGetValue 7 nodeInfo richStats).IntValue = 0
    ∧ (networkRxGetValue 7 nodeInfo richStats).IntValue = 0
    ∧ (networkRxErrorsGetValue 7 nodeInfo richStats).IntValue = 0
    ∧ (networkTxGetValue 7 nodeInfo richStats).IntValue = 0
    ∧ (networkTxErrorsGetValue 7 nodeInfo richStats).IntValue = 0 :=
  node_suppression_zero.2 7 nodeInfo richStats rfl

/-- C2: the claim that no two entries of AllMetrics share a name fails on
the code: StandardMetrics lists MetricMemoryCache and MetricMemoryRSS twice,
so AllMetrics carries "memory/cache" at positions 2 and 6 and "memory/rss"
at positions 3 and 5, and the name list is not duplicate-free. -/
theorem allMetrics_duplicate_names :
    (AllMetrics.map Metric.Name)[2]? = some "memory/cache"
    ∧ (AllMetrics.map Metric.Name)[6]? = some "memory/cache"
    ∧ (AllMetrics.map Metric.Name)[3]? = some "memory/rss"
    ∧ (AllMetrics.map Metric.Name)[5]? = some "memory/rss"
    ∧ ¬ (AllMetrics.map Metric.Name).Nodup := by
  refine ⟨rfl, rfl, rfl, rfl, ?_⟩
  decide

/-- C3 counterexample: AllMetrics is not the concatenation of only the first
four groups (it is 8 entries longer: the node autoscaling group is appended
as well). -/
theorem allMetrics_ne_first_four_groups :
    AllMetrics ≠ StandardMetrics ++ AdditionalMetrics ++ RateMetrics ++ LabeledMetrics :=
  fun h => absurd (congrArg List.length h) (by decide)

/-- C3 amended: AllMetrics equals the concatenation, in declaration order,
of the five groups StandardMetrics, AdditionalMetrics, RateMetrics,
LabeledMetrics and NodeAutoscalingMetrics, and contains no other entries. -/
theorem allMetrics_eq_five_groups :
    AllMetrics
      = StandardMetrics ++ AdditionalMetrics ++ RateMetrics ++ LabeledMetrics ++
          NodeAutoscalingMetrics := rfl

/-- C4 counterexample: the uptime extractor is not a pure function of the
entity and snapshot: invoked on the same entity and the same snapshot at two
different ambient clock instants it returns two different values (the Go
code calls time.Since, i.e. reads the current clock). -/
theorem uptime_getValue_clock_dependent :
    (uptimeGetValue 2000000 sampleInfo emptyStats).IntValue
      ≠ (uptimeGetValue 4000000 sampleInfo emptyStats).IntValue := by
  decide

/-- C4 amended: every extraction operation other than the uptime getValue is
a deterministic, pure function of the entity and snapshot: its result does
not depend on the ambient clock (uptime's getValue does depend on it, as the
counterexample shows).  Lookup operations take only their name argument and
are functions of it by construction. -/
theorem extractors_clock_independent :
    (∀ (t t' : Int) (c : ContainerInfo) (s : ContainerStats),
        cpuUsageGetValue t c s = cpuUsageGetValue t' c s)
    ∧ (∀ (t t' : Int) (c : ContainerInfo) (s : ContainerStats),
        memoryUsageGetValue t c s = memoryUsageGetValue t' c s)
    ∧ (∀ (t t' : Int) (c : ContainerInfo) (s : ContainerStats),
        memoryCacheGetValue t c s = memoryCacheGetValue t' c s)
    ∧ (∀ (t t' : Int) (c : ContainerInfo) (s : ContainerStats),
        memoryRSSGetValue t c s = memoryRSSGetValue t' c s)
    ∧ (∀ (t t' : Int) (c : ContainerInfo) (s : ContainerStats),
        memoryWorkingSetGetValue t c s = memoryWorkingSetGetValue t' c s)
    ∧ (∀ (t t' : Int) (c : ContainerInfo) (s : ContainerStats),
        memoryPageFaultsGetValue t c s = memoryPageFaultsGetValue t' c s)
    ∧ (∀ (t t' : Int) (c : ContainerInfo) (s : ContainerStats),
        memoryMajorPageFaultsGetValue t c s = memoryMajorPageFaultsGetValue t' c s)
    ∧ (∀ (t t' : Int) (c : ContainerInfo) (s : ContainerStats),
        networkRxGetValue t c s = networkRxGetValue t' c s)
    ∧ (∀ (t t' : Int) (c : ContainerInfo) (s : ContainerStats),
        networkRxErrorsGetValue t c s = networkRxErrorsGetValue t' c s)
    ∧ (∀ (t t' : Int) (c : ContainerInfo) (s : ContainerStats),
        networkTxGetValue t c s = networkTxGetValue t' c s)
    ∧ (∀ (t t' : Int) (c : ContainerInfo) (s : ContainerStats),
        networkTxErrorsGetValue t c s = networkTxErrorsGetValue t' c s)
    ∧ (∀ (t t' : Int) (c : ContainerInfo) (s : ContainerStats),
        filesystemUsageGetLabeledMetric t c s = filesystemUsageGetLabeledMetric t' c s)
    ∧ (∀ (t t' : Int) (c : ContainerInfo) (s : ContainerStats),
        filesystemLimitGetLabeledMetric t c s = filesystemLimitGetLabeledMetric t' c s)
    ∧ (∀ (t t' : Int) (c : ContainerInfo) (s : ContainerStats),
        filesystemInodesGetLabeledMetric t c s = filesystemInodesGetLabeledMetric t' c s)
    ∧ (∀ (t t' : Int) (c : ContainerInfo) (s : ContainerStats),
        filesystemInodesFreeGetLabeledMetric t c s = filesystemInodesFreeGetLabeledMetric t' c s)
    ∧ (∀ (t t' : Int) (c : ContainerInfo) (s : ContainerStats),
        diskIOReadGetLabeledMetric t c s = diskIOReadGetLabeledMetric t' c s)
    ∧ (∀ (t t' : Int) (c : ContainerInfo) (s : ContainerStats),
        diskIOWriteGetLabeledMetric t c s = diskIOWriteGetLabeledMetric t' c s)
    ∧ (∀ (t t' : Int) (c : ContainerInfo) (s : ContainerStats),
        acceleratorMemoryTotalGetLabeledMetric t c s = acceleratorMemoryTotalGetLabeledMetric t' c s)
    ∧ (∀ (t t' : Int) (c : ContainerInfo) (s : ContainerStats),
        acceleratorMemoryUsedGetLabeledMetric t c s = acceleratorMemoryUsedGetLabeledMetric t' c s)
    ∧ (∀ (t t' : Int) (c : ContainerInfo) (s : ContainerStats),
        acceleratorDutyCycleGetLabeledMetric t c s = acceleratorDutyCycleGetLabeledMetric t' c s) :=
  ⟨fun _ _ _ _ => rfl, fun _ _ _ _ => rfl, fun _ _ _ _ => rfl, fun _ _ _ _ => rfl,
   fun _ _ _ _ => rfl, fun _ _ _ _ => rfl, fun _ _ _ _ => rfl, fun _ _ _ _ => rfl,
   fun _ _ _ _ => rfl, fun _ _ _ _ => rfl, fun _ _ _ _ => rfl, fun _ _ _ _ => rfl,
   fun _ _ _ _ => rfl, fun _ _ _ _ => rfl, fun _ _ _ _ => rfl, fun _ _ _ _ => rfl,
   fun _ _ _ _ => rfl, fun _ _ _ _ => rfl, fun _ _ _ _ => rfl, fun _ _ _ _ => rfl⟩

/-- C5: labeled cardinality for the inode metrics.  Both inode extractors
are wired to the metrics, and each emits exactly one LabeledMetric per
filesystem record reporting inode support (records without inode support
are skipped); when no record qualifies the result is the empty list (these
extractors are total functions: no error outcome exists). -/
theorem inode_labeled_cardinality :
    (MetricFilesystemInodes.GetLabeledMetric = some filesystemInodesGetLabeledMetric
      ∧ MetricFilesystemInodesFree.GetLabeledMetric = some filesystemInodesFreeGetLabeledMetric)
    ∧ (∀ (now : Int) (c : ContainerInfo) (stat : ContainerStats),
        (filesystemInodesGetLabeledMetric now c stat).length
          = (stat.Filesystem.filter (fun fs => fs.HasInodes)).length
        ∧ (filesystemInodesFreeGetLabeledMetric now c stat).length
          = (stat.Filesystem.filter (fun fs => fs.HasInodes)).length)
    ∧ (∀ (now : Int) (c : ContainerInfo) (stat : ContainerStats),
        stat.Filesystem.filter (fun fs => fs.HasInodes) = [] →
        filesystemInodesGetLabeledMetric now c stat = []
        ∧ filesystemInodesFreeGetLabeledMetric now c stat = []) := by
  refine ⟨⟨rfl, rfl⟩, ?_, ?_⟩
  · intro now c stat
    rw [filesystemInodes_eq_map now c stat, filesystemInodesFree_eq_map now c stat]
    simp
  · intro now c stat h
    rw [filesystemInodes_eq_map now c stat, filesystemInodesFree_eq_map now c stat, h]
    simp

/-- C5 witness: a snapshot whose only filesystem record lacks inode support
yields the empty sequence from both inode extractors. -/
theorem inode_labeled_cardinality_witness :
    filesystemInodesGetLabeledMetric 3 sampleInfo noInodeStats = []
    ∧ filesystemInodesFreeGetLabeledMetric 3 sampleInfo noInodeStats = [] :=
  inode_labeled_cardinality.2.2 3 sampleInfo noInodeStats rfl

/-- C6: operation demultiplexing for disk I/O.  Both disk extractors are
wired to the metrics; the read extractor takes each record's value from the
"Read" key of its operation map and the write extractor from the "Write"
key, a missing key contributing 0; in particular a record whose map holds
only "Write": 500 yields 0 from the read metric and 500 from the write
metric. -/
theorem disk_io_demultiplex :
    (MetricDiskIORead.GetLabeledMetric = some diskIOReadGetLabeledMetric
      ∧ MetricDiskIOWrite.GetLabeledMetric = some diskIOWriteGetLabeledMetric)
    ∧ (∀ (now : Int) (c : ContainerInfo) (stat : ContainerStats),
        (diskIOReadGetLabeledMetric now c stat).map (fun lm => lm.MetricValue.IntValue)
          = stat.DiskIo.IoServiceBytes.map (fun d =>
              toInt64 (match d.Stats.lookup "Read" with
                | some v => v
                | none => 0))
        ∧ (diskIOWriteGetLabeledMetric now c stat).map (fun lm => lm.MetricValue.IntValue)
          = stat.DiskIo.IoServiceBytes.map (fun d =>
              toInt64 (match d.Stats.lookup "Write" with
                | some v => v
                | none => 0)))
    ∧ ((diskIOReadGetLabeledMetric 0 sampleInfo writeOnlyDiskStats).map
          (fun lm => lm.MetricValue.IntValue) = [0]
        ∧ (diskIOWriteGetLabeledMetric 0 sampleInfo writeOnlyDiskStats).map
          (fun lm => lm.MetricValue.IntValue) = [500]) := by
  refine ⟨⟨rfl, rfl⟩, ?_, ?_, ?_⟩
  · intro now c stat
    rw [diskIORead_eq_map now c stat, diskIOWrite_eq_map now c stat]
    constructor <;> rw [List.map_map] <;> rfl
  · decide
  · decide

/-- C7: the family lookup is a well-defined total function: the four
per-family lists are pairwise disjoint by name; every metric in a curated
per-family list is mapped by MetricFamilyForName to exactly that family;
every name present in no per-family list is mapped to the General family;
and the table-scan order is irrelevant: scanning any permutation of the
family table gives the same answer. -/
theorem familyForName_partition :
    ((∀ m ∈ CpuMetrics, ∀ m' ∈ FilesystemMetrics, m.Name ≠ m'.Name)
      ∧ (∀ m ∈ CpuMetrics, ∀ m' ∈ MemoryMetrics, m.Name ≠ m'.Name)
      ∧ (∀ m ∈ CpuMetrics, ∀ m' ∈ NetworkMetrics, m.Name ≠ m'.Name)
      ∧ (∀ m ∈ FilesystemMetrics, ∀ m' ∈ MemoryMetrics, m.Name ≠ m'.Name)
      ∧ (∀ m ∈ FilesystemMetrics, ∀ m' ∈ NetworkMetrics, m.Name ≠ m'.Name)
      ∧ (∀ m ∈ MemoryMetrics, ∀ m' ∈ NetworkMetrics, m.Name ≠ m'.Name))
    ∧ ((∀ m ∈ CpuMetrics, MetricFamilyForName m.Name = MetricFamilyCpu)
      ∧ (∀ m ∈ FilesystemMetrics, MetricFamilyForName m.Name = MetricFamilyFilesystem)
      ∧ (∀ m ∈ MemoryMetrics, MetricFamilyForName m.Name = MetricFamilyMemory)
      ∧ (∀ m ∈ NetworkMetrics, MetricFamilyForName m.Name = MetricFamilyNetwork))
    ∧ (∀ n : String,
        (∀ q ∈ MetricFamilies, ∀ m ∈ q.2, m.Name ≠ n) →
        MetricFamilyForName n = MetricFamilyGeneral)
    ∧ (∀ table, MetricFamilies.Perm table →
        ∀ n : String, metricFamilyScan table n = MetricFamilyForName n) := by
  refine ⟨⟨cpu_fs_names_disjoint, cpu_mem_names_disjoint, cpu_net_names_disjoint,
      fs_mem_names_disjoint, fs_net_names_disjoint, mem_net_names_disjoint⟩,
    ⟨by decide, by decide, by decide, by decide⟩, ?_, ?_⟩
  · intro n h
    exact metricFamilyScan_eq_general MetricFamilies n h
  · intro table hperm n
    show metricFamilyScan table n = metricFamilyScan MetricFamilies n
    rw [metricFamilyScan_eq_find table n, metricFamilyScan_eq_find MetricFamilies n,
      find?_perm_of_unique hperm (families_unique_match n)]

/-- C7 witness: sample instances of each part — distinct names across two
family lists, a curated metric resolving to its own family, an unknown name
resolving to General, and a swapped table scanning identically. -/
theorem familyForName_partition_witness :
    MetricCpuUsage.Name ≠ MetricFilesystemUsage.Name
    ∧ MetricFamilyForName MetricCpuUsage.Name = MetricFamilyCpu
    ∧ MetricFamilyForName "bogus/name" = MetricFamilyGeneral
    ∧ metricFamilyScan
        [(MetricFamilyFilesystem, FilesystemMetrics), (MetricFamilyCpu, CpuMetrics),
         (MetricFamilyMemory, MemoryMetrics), (MetricFamilyNetwork, NetworkMetrics)]
        "memory/usage" = MetricFamilyForName "memory/usage" :=
  ⟨familyForName_partition.1.1 MetricCpuUsage
      (List.Mem.tail _ (List.Mem.tail _ (List.Mem.head _)))
      MetricFilesystemUsage
      (List.Mem.tail _ (List.Mem.tail _ (List.Mem.head _))),
   familyForName_partition.2.1.1 MetricCpuUsage
      (List.Mem.tail _ (List.Mem.tail _ (List.Mem.head _))),
   familyForName_partition.2.2.1 "bogus/name" (by decide),
   familyForName_partition.2.2.2 _ (List.Perm.swap _ _ _) "memory/usage"⟩

/-- C8: the rate mapping is total on its domain and injective: every key of
RateMetricsMapping resolves to a rate metric, and distinct keys resolve to
rate metrics with distinct descriptors. -/
theorem rateMapping_total_injective :
    (∀ k ∈ RateMetricsMapping.map Prod.fst,
        (RateMetricsMapping.lookup k).isSome = true)
    ∧ (∀ k1 ∈ RateMetricsMapping.map Prod.fst,
        ∀ k2 ∈ RateMetricsMapping.map Prod.fst,
        k1 ≠ k2 →
        Option.map (fun m => m.MetricDescriptor) (RateMetricsMapping.lookup k1)
          ≠ Option.map (fun m => m.MetricDescriptor) (RateMetricsMapping.lookup k2)) := by
  constructor <;> decide

/-- C8 witness: the cpu/usage key resolves, and the cpu/usage and network/rx
keys resolve to different rate metrics. -/
theorem rateMapping_total_injective_witness :
    (RateMetricsMapping.lookup "cpu/usage").isSome = true
    ∧ Option.map (fun m => m.MetricDescriptor) (RateMetricsMapping.lookup "cpu/usage")
        ≠ Option.map (fun m => m.MetricDescriptor) (RateMetricsMapping.lookup "network/rx") :=
  ⟨rateMapping_total_injective.1 "cpu/usage" (by decide),
   rateMapping_total_injective.2 "cpu/usage" (by decide) "network/rx" (by decide)
     (by decide)⟩

/-- A mapped list read at an index where the source list holds a record. -/
theorem getElem?_map_of {α β : Type} (f : α → β) {l : List α} {i : Nat} {d : α}
    (hd : l[i]? = some d) : (l.map f)[i]? = some (f d) := by
  rw [List.getElem?_map, hd]
  rfl

/-- C9: disk resource-id fallback.  For any partition record with an empty
device name, both disk extractors label the corresponding emitted entry with
resource id "<major>:<minor>"; in particular major=8, minor=1 gives "8:1".
The fallback is total: it emits an entry for every record. -/
theorem disk_resource_id_fallback :
    (∀ (now : Int) (c : ContainerInfo) (stat : ContainerStats) (i : Nat) (d : PerDiskStats),
        stat.DiskIo.IoServiceBytes[i]? = some d → d.Device = "" →
        (∃ lm, (diskIOReadGetLabeledMetric now c stat)[i]? = some lm
          ∧ lm.Labels = [(LabelResourceID.Key, toString d.Major ++ ":" ++ toString d.Minor)])
        ∧ (∃ lm, (diskIOWriteGetLabeledMetric now c stat)[i]? = some lm
          ∧ lm.Labels = [(LabelResourceID.Key, toString d.Major ++ ":" ++ toString d.Minor)]))
    ∧ ((diskIOReadGetLabeledMetric 0 sampleInfo disk81Stats).map (fun lm => lm.Labels)
        = [[("resource_id", "8:1")]]
      ∧ (diskIOWriteGetLabeledMetric 0 sampleInfo disk81Stats).map (fun lm => lm.Labels)
        = [[("resource_id", "8:1")]]) := by
  refine ⟨?_, by decide, by decide⟩
  intro now c stat i d hd hdev
  constructor
  · rw [diskIORead_eq_map now c stat]
    exact ⟨_, getElem?_map_of _ hd, by simp [hdev]⟩
  · rw [diskIOWrite_eq_map now c stat]
    exact ⟨_, getElem?_map_of _ hd, by simp [hdev]⟩

/-- C9 witness: the record with empty device name, major 8 and minor 1 is
labeled "8:1" by both extractors. -/
theorem disk_resource_id_fallback_witness :
    (∃ lm, (diskIOReadGetLabeledMetric 0 sampleInfo disk81Stats)[0]? = some lm
      ∧ lm.Labels = [(LabelResourceID.Key, toString (8 : Nat) ++ ":" ++ toString (1 : Nat))])
    ∧ (∃ lm, (diskIOWriteGetLabeledMetric 0 sampleInfo disk81Stats)[0]? = some lm
      ∧ lm.Labels = [(LabelResourceID.Key, toString (8 : Nat) ++ ":" ++ toString (1 : Nat))]) :=
  disk_resource_id_fallback.1 0 sampleInfo disk81Stats 0
    { Device := "", Major := 8, Minor := 1, Stats := [("Write", 500)] } rfl rfl

/-- The entry the disk read extractor emits for the "sda" record of
richStats; used by the C10 witness. -/
def sdaReadEntry : LabeledMetric :=
  { Name := "disk/io_read_bytes",
    Labels := [("resource_id", "sda")],
    MetricValue :=
      { ValueType := ValueInt64, MetricType := MetricGauge,
        IntValue := toInt64 100, FloatValue := 0 } }

/-- C10: every LabeledMetric emitted by the disk read and write extractors
carries kind Gauge in its embedded MetricValue, although the two registered
descriptors declare kind Cumulative: the emitted kind does not match the
descriptor kind. -/
theorem disk_io_kind_mismatch :
    (MetricDiskIORead.MetricDescriptor.Type' = MetricCumulative
      ∧ MetricDiskIOWrite.MetricDescriptor.Type' = MetricCumulative
      ∧ MetricDiskIORead.GetLabeledMetric = some diskIOReadGetLabeledMetric
      ∧ MetricDiskIOWrite.GetLabeledMetric = some diskIOWriteGetLabeledMetric)
    ∧ (∀ (now : Int) (c : ContainerInfo) (stat : ContainerStats),
        (∀ lm ∈ diskIOReadGetLabeledMetric now c stat,
          lm.MetricValue.MetricType = MetricGauge)
        ∧ (∀ lm ∈ diskIOWriteGetLabeledMetric now c stat,
          lm.MetricValue.MetricType = MetricGauge)) := by
  refine ⟨⟨rfl, rfl, rfl, rfl⟩, ?_⟩
  intro now c stat
  constructor
  · intro lm hlm
    rw [diskIORead_eq_map now c stat] at hlm
    obtain ⟨d, _, rfl⟩ := List.mem_map.mp hlm
    rfl
  · intro lm hlm
    rw [diskIOWrite_eq_map now c stat] at hlm
    obtain ⟨d, _, rfl⟩ := List.mem_map.mp hlm
    rfl

/-- C10 witness: the concrete entry emitted for the "sda" record of
richStats carries kind Gauge. -/
theorem disk_io_kind_mismatch_witness :
    sdaReadEntry.MetricValue.MetricType = MetricGauge :=
  (disk_io_kind_mismatch.2 0 sampleInfo richStats).1 sdaReadEntry (List.Mem.head _)
